import Mathlib

/-!
Verification of the moon-plane-transit geometry and prediction engine.

The numeric model follows the source (src/lib/transitDetector.ts,
src/lib/astronomy.ts, src/lib/flights.ts): JavaScript numbers are modelled
as real numbers, `Math.sin` / `Math.cos` / `Math.atan2` / `Math.sqrt` as their
mathematical counterparts, and the JavaScript remainder operator as
truncated remainder.  The celestial ephemeris (calculateMoonPosition /
calculateSunPosition) delegates entirely to the external astronomy-engine
library, so the detection pass is modelled generically over a celestial
position provider function, exactly the external-collaborator interface the
code consumes; `Date` values are epoch milliseconds, and the ambient
`Date.now()` read performed inside `calculateConfidence` is made an explicit
`dateNowMs` argument so that its influence can be reasoned about.
`formatTimeToTransit` is numeric-to-string and is modelled over `ℚ` so that
it stays executable.
-/

open Real List

/-- Model of JavaScript `Math.atan2 y x` on real (non-NaN, finite) inputs:
the angle of the point `(x, y)` in `(-π, π]`, with `atan2 0 0 = 0` as for
JavaScript positive zeros. -/
noncomputable def atan2 (y x : ℝ) : ℝ :=
  if 0 < x then arctan (y / x)
  else if x < 0 then
    (if 0 ≤ y then arctan (y / x) + π else arctan (y / x) - π)
  else
    (if 0 < y then π / 2 else if y < 0 then -(π / 2) else 0)

/-- Truncation toward zero, as used by the JavaScript `%` operator. -/
noncomputable def jsTrunc (x : ℝ) : ℤ :=
  if 0 ≤ x then ⌊x⌋ else ⌈x⌉

/-- Model of the JavaScript remainder `a % b` for finite reals, `b ≠ 0`:
`a - b * trunc (a / b)` (the result carries the sign of the dividend). -/
noncomputable def jsMod (a b : ℝ) : ℝ :=
  a - b * jsTrunc (a / b)

/-- Observer from src/lib/astronomy.ts. -/
structure Observer where
  latitude : ℝ
  longitude : ℝ
  elevation : ℝ

/-- FlightData from src/lib/flights.ts (`lastUpdate` is epoch seconds). -/
structure FlightData where
  icao24 : String
  callsign : Option String
  latitude : ℝ
  longitude : ℝ
  altitude : ℝ
  velocity : ℝ
  heading : ℝ
  verticalRate : ℝ
  lastUpdate : ℝ

/-- FlightPosition from src/lib/flights.ts. -/
structure FlightPosition where
  flight : FlightData
  altitude : ℝ
  azimuth : ℝ
  distanceKm : ℝ

/-- The fields of MoonPosition / SunPosition (src/lib/astronomy.ts) that the
transit detector reads: horizontal coordinates, distance and angular
diameter. -/
structure CelestialPosition where
  altitude : ℝ
  azimuth : ℝ
  distance : ℝ
  angularDiameter : ℝ

/-- Return type of the detector-private horizontal transform
(`calculatePredictedFlightHorizontal` in src/lib/transitDetector.ts). -/
structure HorizontalCoordinates where
  altitude : ℝ
  azimuth : ℝ

/-- TransitPrediction from src/lib/transitDetector.ts.  `transitTime` is
epoch milliseconds, `timeToTransit` is seconds. -/
structure TransitPrediction where
  flight : FlightData
  transitTime : ℝ
  angularSeparation : ℝ
  confidenceScore : ℝ
  bodyName : String
  bodyAltitude : ℝ
  bodyAzimuth : ℝ
  flightAltitude : ℝ
  flightAzimuth : ℝ
  timeToTransit : ℝ

/-- TransitDetectorConfig from src/lib/transitDetector.ts. -/
structure TransitDetectorConfig where
  maxAngularSeparation : ℝ
  predictionWindowSeconds : ℝ
  minConfidenceScore : ℝ

/-- The default configuration `DEFAULT_CONFIG`. -/
def defaultConfig : TransitDetectorConfig :=
  { maxAngularSeparation := 0.5, predictionWindowSeconds := 600, minConfidenceScore := 0.3 }

/-- calculateAngularSeparation from src/lib/astronomy.ts: haversine-style
separation of two horizontal positions, in degrees. -/
noncomputable def calculateAngularSeparation (alt1 az1 alt2 az2 : ℝ) : ℝ :=
  let toRad := π / 180
  let phi1 := alt1 * toRad
  let phi2 := alt2 * toRad
  let deltaTheta := (az2 - az1) * toRad
  let a := sin ((phi2 - phi1) / 2) ^ 2 + cos phi1 * cos phi2 * sin (deltaTheta / 2) ^ 2
  let c := 2 * atan2 (Real.sqrt a) (Real.sqrt (1 - a))
  c * 180 / π

/-- calculateFlightPosition from src/lib/flights.ts (identical in both data
source modules): haversine distance, forward bearing and flat elevation
angle from the observer to the aircraft. -/
noncomputable def calculateFlightPosition (observer : Observer) (flight : FlightData) :
    FlightPosition :=
  let R : ℝ := 6371
  let lat1 := observer.latitude * π / 180
  let lat2 := flight.latitude * π / 180
  let deltaLat := (flight.latitude - observer.latitude) * π / 180
  let deltaLon := (flight.longitude - observer.longitude) * π / 180
  let a := sin (deltaLat / 2) * sin (deltaLat / 2) +
      cos lat1 * cos lat2 * sin (deltaLon / 2) * sin (deltaLon / 2)
  let c := 2 * atan2 (Real.sqrt a) (Real.sqrt (1 - a))
  let distanceKm := R * c
  let y := sin deltaLon * cos lat2
  let x := cos lat1 * sin lat2 - sin lat1 * cos lat2 * cos deltaLon
  let azimuth := jsMod (atan2 y x * 180 / π + 360) 360
  let altitudeMeters := flight.altitude - observer.elevation
  let altitudeAngle := atan2 altitudeMeters (distanceKm * 1000) * 180 / π
  { flight := flight, altitude := altitudeAngle, azimuth := azimuth, distanceKm := distanceKm }

/-- Predicted geodetic position returned by predictFlightPosition. -/
structure PredictedPosition where
  latitude : ℝ
  longitude : ℝ
  altitude : ℝ

/-- predictFlightPosition from src/lib/flights.ts: great-circle forward
point at constant speed and heading, linear vertical extrapolation. -/
noncomputable def predictFlightPosition (flight : FlightData) (secondsAhead : ℝ) :
    PredictedPosition :=
  let metersPerSecond := flight.velocity
  let distanceMeters := metersPerSecond * secondsAhead
  let R : ℝ := 6371000
  let bearing := flight.heading * π / 180
  let lat1 := flight.latitude * π / 180
  let lon1 := flight.longitude * π / 180
  let lat2 := arcsin (sin lat1 * cos (distanceMeters / R) +
      cos lat1 * sin (distanceMeters / R) * cos bearing)
  let lon2 := lon1 + atan2 (sin bearing * sin (distanceMeters / R) * cos lat1)
      (cos (distanceMeters / R) - sin lat1 * sin lat2)
  let predictedAltitude := flight.altitude + flight.verticalRate * secondsAhead
  { latitude := lat2 * 180 / π, longitude := lon2 * 180 / π, altitude := predictedAltitude }

/-- calculatePredictedFlightHorizontal, the private transform of
TransitDetector (src/lib/transitDetector.ts, lines 151-182). -/
noncomputable def calculatePredictedFlightHorizontal (observer : Observer)
    (latitude longitude altitude : ℝ) : HorizontalCoordinates :=
  let R : ℝ := 6371
  let lat1 := observer.latitude * π / 180
  let lat2 := latitude * π / 180
  let deltaLat := (latitude - observer.latitude) * π / 180
  let deltaLon := (longitude - observer.longitude) * π / 180
  let a := sin (deltaLat / 2) * sin (deltaLat / 2) +
      cos lat1 * cos lat2 * sin (deltaLon / 2) * sin (deltaLon / 2)
  let c := 2 * atan2 (Real.sqrt a) (Real.sqrt (1 - a))
  let distanceKm := R * c
  let y := sin deltaLon * cos lat2
  let x := cos lat1 * sin lat2 - sin lat1 * cos lat2 * cos deltaLon
  let azimuth := jsMod (atan2 y x * 180 / π + 360) 360
  let altitudeMeters := altitude - observer.elevation
  let altitudeAngle := atan2 altitudeMeters (distanceKm * 1000) * 180 / π
  { altitude := altitudeAngle, azimuth := azimuth }

/-- A celestial position provider: the interface of calculateMoonPosition /
calculateSunPosition.  Both delegate to the external astronomy-engine
library (a non-goal of the specification), so the detection pass is modelled
generically over this function of observer and epoch-millisecond timestamp. -/
def CelestialProvider : Type :=
  Observer → ℝ → CelestialPosition

/-- The freshness factor of calculateConfidence
(src/lib/transitDetector.ts lines 206-213).  The data age is computed from
the ambient wall clock `Date.now()` (modelled by the explicit `dateNowMs`
argument), not from the `currentTime` argument of the detection pass. -/
noncomputable def freshnessFactor (dateNowMs : ℝ) (flight : FlightData) : ℝ :=
  let dataAge := dateNowMs / 1000 - flight.lastUpdate
  if dataAge < 10 then 1 else if dataAge < 30 then 0.9 else 0.7

/-- calculateConfidence from src/lib/transitDetector.ts: multiplicative
factors for separation, disk bonus, speed plausibility, data freshness and
current visibility, clamped to the interval from 0 to 1. -/
noncomputable def calculateConfidence (config : TransitDetectorConfig) (dateNowMs : ℝ)
    (angularSeparation : ℝ) (flight : FlightData) (moonPosition : CelestialPosition)
    (flightPosition : FlightPosition) : ℝ :=
  let confidence1 := 1 * (1 - angularSeparation / config.maxAngularSeparation)
  let moonAngularRadius := moonPosition.angularDiameter / 2
  let confidence2 := if angularSeparation ≤ moonAngularRadius then confidence1 * 1.2
    else confidence1
  let confidence3 := if 0 < flight.velocity ∧ flight.velocity < 1000 then confidence2 * 1
    else confidence2 * 0.8
  let confidence4 := confidence3 * freshnessFactor dateNowMs flight
  let confidence5 := if 10 < flightPosition.altitude then confidence4 * 1.1
    else if 5 < flightPosition.altitude then confidence4 * 1
    else confidence4 * 0.8
  min (max confidence5 0) 1

/-- The sample offsets (in seconds ahead) visited by the window scan
`for (let seconds = 0; seconds <= predictionWindowSeconds; seconds += 5)`. -/
noncomputable def sampleOffsets (windowSeconds : ℝ) : List ℝ :=
  if 0 ≤ windowSeconds then
    (List.range (⌊windowSeconds / 5⌋.toNat + 1)).map (fun i => 5 * (i : ℝ))
  else []

/-- Running state of the closest-approach scan: the code's
`closestSeparation` / `closestTime` / `closestFlightAlt` / `closestFlightAz`
variables; `none` models `closestTime === null` with separation Infinity. -/
structure ClosestApproach where
  separation : ℝ
  time : ℝ
  flightAlt : ℝ
  flightAz : ℝ

/-- One iteration of the window-scan loop of predictTransit
(src/lib/transitDetector.ts lines 87-121): query the provider, skip the
sample when the body or the extrapolated aircraft is below the horizon,
otherwise update the running minimum with a strictly-less-than comparison. -/
noncomputable def transitStep (provider : CelestialProvider) (observer : Observer)
    (flight : FlightData) (currentTime : ℝ) (best : Option ClosestApproach) (seconds : ℝ) :
    Option ClosestApproach :=
  let futureTime := currentTime + seconds * 1000
  let predictedPosition := predictFlightPosition flight seconds
  let futureBodyPosition := provider observer futureTime
  if futureBodyPosition.altitude < 0 then best
  else
    let futureFlightPosition := calculatePredictedFlightHorizontal observer
      predictedPosition.latitude predictedPosition.longitude predictedPosition.altitude
    if futureFlightPosition.altitude < 0 then best
    else
      let separation := calculateAngularSeparation futureBodyPosition.altitude
        futureBodyPosition.azimuth futureFlightPosition.altitude futureFlightPosition.azimuth
      match best with
      | none => some ⟨separation, futureTime, futureFlightPosition.altitude,
          futureFlightPosition.azimuth⟩
      | some b =>
        if separation < b.separation then
          some ⟨separation, futureTime, futureFlightPosition.altitude,
            futureFlightPosition.azimuth⟩
        else some b

/-- predictTransit from src/lib/transitDetector.ts: scan the window, reject
when nothing was found or the minimum separation exceeds the maximum, else
build the prediction (whose body coordinates come from the `bodyPosition`
argument, the current-time snapshot). -/
noncomputable def predictTransit (config : TransitDetectorConfig)
    (provider : CelestialProvider) (observer : Observer) (flight : FlightData)
    (currentFlightPosition : FlightPosition) (bodyName : String)
    (bodyPosition : CelestialPosition) (currentTime dateNowMs : ℝ) :
    Option TransitPrediction :=
  match (sampleOffsets config.predictionWindowSeconds).foldl
      (transitStep provider observer flight currentTime) none with
  | none => none
  | some closest =>
    if config.maxAngularSeparation < closest.separation then none
    else
      let confidence := calculateConfidence config dateNowMs closest.separation flight
        bodyPosition currentFlightPosition
      let timeToTransit := (closest.time - currentTime) / 1000
      some { flight := flight, transitTime := closest.time,
             angularSeparation := closest.separation, confidenceScore := confidence,
             bodyName := bodyName, bodyAltitude := bodyPosition.altitude,
             bodyAzimuth := bodyPosition.azimuth, flightAltitude := closest.flightAlt,
             flightAzimuth := closest.flightAz, timeToTransit := timeToTransit }

/-- Ordering used by the final sort of the detection pass: ascending
seconds-until-transit (the comparator `a.timeToTransit - b.timeToTransit`). -/
def predictionLE (a b : TransitPrediction) : Prop :=
  a.timeToTransit ≤ b.timeToTransit

noncomputable instance : DecidableRel predictionLE :=
  fun a b => inferInstanceAs (Decidable (a.timeToTransit ≤ b.timeToTransit))

instance : IsTotal TransitPrediction predictionLE :=
  ⟨fun a b => le_total a.timeToTransit b.timeToTransit⟩

instance : IsTrans TransitPrediction predictionLE :=
  ⟨fun _ _ _ hab hbc => le_trans hab hbc⟩

/-- The loop body of detectBodyTransits for one flight: skip the flight when
its current horizontal altitude is below the horizon, otherwise run the
window search and keep the prediction when its confidence reaches the
minimum. -/
noncomputable def processFlight (config : TransitDetectorConfig) (provider : CelestialProvider)
    (observer : Observer) (bodyName : String) (bodyPosition : CelestialPosition)
    (currentTime dateNowMs : ℝ) (flight : FlightData) : Option TransitPrediction :=
  let flightPosition := calculateFlightPosition observer flight
  if flightPosition.altitude < 0 then none
  else
    match predictTransit config provider observer flight flightPosition bodyName
        bodyPosition currentTime dateNowMs with
    | none => none
    | some prediction =>
      if config.minConfidenceScore ≤ prediction.confidenceScore then some prediction
      else none

/-- detectBodyTransits from src/lib/transitDetector.ts: run the per-flight
search on every flight, collect the accepted predictions, and sort
ascending by seconds-until-transit. -/
noncomputable def detectBodyTransits (bodyName : String) (provider : CelestialProvider)
    (config : TransitDetectorConfig) (observer : Observer) (flights : List FlightData)
    (bodyPosition : CelestialPosition) (currentTime dateNowMs : ℝ) :
    List TransitPrediction :=
  let predictions := flights.filterMap
    (processFlight config provider observer bodyName bodyPosition currentTime dateNowMs)
  List.insertionSort predictionLE predictions

/-- detectMoonTransits: the Moon pathway, with calculateMoonPosition (the
external astronomy-engine ephemeris) supplied as the provider. -/
noncomputable def detectMoonTransits (calculateMoonPos : CelestialProvider)
    (config : TransitDetectorConfig) (observer : Observer) (flights : List FlightData)
    (moonPosition : CelestialPosition) (currentTime dateNowMs : ℝ) :
    List TransitPrediction :=
  detectBodyTransits ("Moon") calculateMoonPos config observer flights moonPosition
    currentTime dateNowMs

/-- detectSunTransits: the Sun pathway. -/
noncomputable def detectSunTransits (calculateSunPos : CelestialProvider)
    (config : TransitDetectorConfig) (observer : Observer) (flights : List FlightData)
    (sunPosition : CelestialPosition) (currentTime dateNowMs : ℝ) :
    List TransitPrediction :=
  detectBodyTransits ("Sun") calculateSunPos config observer flights sunPosition
    currentTime dateNowMs

/-- detectTransits: the backward-compatible Moon-only pathway. -/
noncomputable def detectTransits (calculateMoonPos : CelestialProvider)
    (config : TransitDetectorConfig) (observer : Observer) (flights : List FlightData)
    (moonPosition : CelestialPosition) (currentTime dateNowMs : ℝ) :
    List TransitPrediction :=
  detectMoonTransits calculateMoonPos config observer flights moonPosition currentTime
    dateNowMs

/-- Number of celestial-provider queries the detection pass issues for one
flight, read off the control flow of detectBodyTransits / predictTransit:
a flight whose current horizontal altitude is below the horizon is skipped
before the window search, and otherwise the provider is queried exactly once
per visited sample offset (before any skip test of that sample). -/
noncomputable def flightProviderCalls (config : TransitDetectorConfig) (observer : Observer)
    (flight : FlightData) : ℕ :=
  if (calculateFlightPosition observer flight).altitude < 0 then 0
  else (sampleOffsets config.predictionWindowSeconds).length

/-- Total number of celestial-provider queries of one detection pass. -/
noncomputable def detectProviderCalls (config : TransitDetectorConfig) (observer : Observer)
    (flights : List FlightData) : ℕ :=
  (flights.map (flightProviderCalls config observer)).sum

/-- JavaScript `Math.round` on rationals: round half toward positive
infinity. -/
def jsRound (q : ℚ) : ℤ :=
  ⌊q + 1 / 2⌋

/-- Truncation toward zero on rationals (JavaScript `%`). -/
def jsTruncQ (q : ℚ) : ℤ :=
  if 0 ≤ q then ⌊q⌋ else ⌈q⌉

/-- JavaScript remainder `a % b` on rationals, `b ≠ 0`. -/
def jsModQ (a b : ℚ) : ℚ :=
  a - b * jsTruncQ (a / b)

/-- formatTimeToTransit from src/lib/transitDetector.ts: branch on the raw
value and round each displayed component. -/
def formatTimeToTransit (seconds : ℚ) : String :=
  if seconds < 60 then
    toString (jsRound seconds) ++ "s"
  else if seconds < 3600 then
    let minutes := ⌊seconds / 60⌋
    let remainingSeconds := jsRound (jsModQ seconds 60)
    toString minutes ++ "m " ++ toString remainingSeconds ++ "s"
  else
    let hours := ⌊seconds / 3600⌋
    let minutes := ⌊jsModQ seconds 3600 / 60⌋
    toString hours ++ "h " ++ toString minutes ++ "m"

/-- Modelled from the spec (testable property 8 and claim C9): the time
formatter described there first rounds its argument to the nearest whole
second and only then branches, boundary-exactly, on the rounded value. -/
def formatTimeToTransitSpec (seconds : ℚ) : String :=
  let r := jsRound seconds
  if r < 60 then
    toString r ++ "s"
  else if r < 3600 then
    toString (r / 60) ++ "m " ++ toString (r % 60) ++ "s"
  else
    toString (r / 3600) ++ "h " ++ toString (r % 3600 / 60) ++ "m"

/-- The haversine quantity `a` computed inside calculateAngularSeparation. -/
noncomputable def haversineA (alt1 az1 alt2 az2 : ℝ) : ℝ :=
  sin ((alt2 * (π / 180) - alt1 * (π / 180)) / 2) ^ 2 +
    cos (alt1 * (π / 180)) * cos (alt2 * (π / 180)) *
      sin ((az2 - az1) * (π / 180) / 2) ^ 2

/-- The horizontal coordinates the window scan computes for one flight at
sample offset `s`: the detector-private transform applied to the
extrapolated geodetic position. -/
noncomputable def sampleFlightHorizontal (observer : Observer) (flight : FlightData)
    (s : ℝ) : HorizontalCoordinates :=
  calculatePredictedFlightHorizontal observer (predictFlightPosition flight s).latitude
    (predictFlightPosition flight s).longitude (predictFlightPosition flight s).altitude

/-- A closest-approach state arises from an actual window sample: some
offset `s` at which neither the body nor the extrapolated aircraft was below
the horizon, whose time, separation and aircraft coordinates the state
records. -/
def IsSampleOf (provider : CelestialProvider) (observer : Observer) (flight : FlightData)
    (currentTime : ℝ) (b : ClosestApproach) : Prop :=
  ∃ s : ℝ,
    0 ≤ (provider observer (currentTime + s * 1000)).altitude ∧
    0 ≤ (sampleFlightHorizontal observer flight s).altitude ∧
    b.time = currentTime + s * 1000 ∧
    b.separation = calculateAngularSeparation
      (provider observer (currentTime + s * 1000)).altitude
      (provider observer (currentTime + s * 1000)).azimuth
      (sampleFlightHorizontal observer flight s).altitude
      (sampleFlightHorizontal observer flight s).azimuth ∧
    b.flightAlt = (sampleFlightHorizontal observer flight s).altitude ∧
    b.flightAz = (sampleFlightHorizontal observer flight s).azimuth

/-! ### A concrete scenario used to check the claims against the code.
The observer sits at the origin with zero elevation; the aircraft hovers at
latitude 0, longitude 180 (velocity, heading, vertical rate and lastUpdate
all zero) at a configurable barometric altitude, which puts its horizontal
altitude angle exactly on the horizon when the barometric altitude is 0.
The provider reports a body exactly on the horizon at azimuth 0, while the
body-position snapshot passed to the detection pass has altitude 45 and
azimuth 90. -/

noncomputable def obsCex : Observer := ⟨0, 0, 0⟩

noncomputable def flightCexAlt (altm : ℝ) : FlightData :=
  ⟨"CEX123", none, 0, 180, altm, 0, 0, 0, 0⟩

noncomputable def flightCex : FlightData := flightCexAlt 0

noncomputable def bodyPosCex : CelestialPosition := ⟨45, 90, 384400, 0.52⟩

noncomputable def providerCex : CelestialProvider := fun _ _ => ⟨0, 0, 384400, 0.52⟩

noncomputable def cfgCex : TransitDetectorConfig := ⟨0.5, 0, 0.3⟩

/-- A configuration with a negative prediction window. -/
noncomputable def cfgNegWindow : TransitDetectorConfig := ⟨0.5, -5, 0.3⟩

/-- The current flight position of the hovering aircraft as the detection
pass computes it. -/
noncomputable def fposCex : FlightPosition := ⟨flightCex, 0, 0, 6371 * π⟩

/-- The confidence score the scenario produces, as a function of the
wall-clock instant read inside calculateConfidence. -/
noncomputable def confCex (dn : ℝ) : ℝ :=
  calculateConfidence cfgCex dn 0 flightCex bodyPosCex fposCex

/-- The prediction the scenario emits. -/
noncomputable def pCex (dn : ℝ) : TransitPrediction :=
  ⟨flightCex, 0, 0, confCex dn, "Moon", 45, 90, 0, 0, 0⟩

/-- A fast, fresh, high-in-the-sky aircraft used for the confidence-score
claims: velocity 500, current horizontal altitude 45. -/
noncomputable def flightFast : FlightData :=
  ⟨"FAST01", none, 0, 0, 10000, 500, 90, 0, 0⟩

/-- Its current flight position, 45 degrees above the horizon. -/
noncomputable def fposHigh : FlightPosition := ⟨flightFast, 45, 0, 10⟩

/-- A configuration with a very loose maximum angular separation. -/
noncomputable def cfgWide : TransitDetectorConfig := ⟨100, 600, 0.3⟩

/-! ### Helper lemmas about the rational rounding helpers -/

theorem jsRound_intCast (n : ℤ) : jsRound (n : ℚ) = n := by
  unfold jsRound
  rw [Int.floor_int_add]
  norm_num

theorem jsTruncQ_of_nonneg {q : ℚ} (h : 0 ≤ q) : jsTruncQ q = ⌊q⌋ :=
  if_pos h

theorem jsModQ_intCast (n : ℤ) (d : ℕ) (hn : 0 ≤ n) (hd : 0 < d) :
    jsModQ (n : ℚ) (d : ℚ) = ((n % (d : ℤ) : ℤ) : ℚ) := by
  unfold jsModQ
  have hq : (0 : ℚ) ≤ (n : ℚ) / (d : ℚ) := by positivity
  rw [jsTruncQ_of_nonneg hq]
  have hfl : ⌊(n : ℚ) / ((d : ℕ) : ℚ)⌋ = n / (d : ℤ) := Rat.floor_intCast_div_natCast n d
  push_cast at hfl ⊢
  rw [hfl]
  have := Int.emod_emod_of_dvd n (dvd_refl (d : ℤ))
  push_cast [Int.emod_def]
  ring

/-- C10: the transit detector's private horizontal transform agrees exactly
(altitude angle and azimuth) with the flights module's
calculateFlightPosition on every observer and every target latitude,
longitude and altitude, so the two duplicated pathways cannot disagree. -/
theorem calculatePredictedFlightHorizontal_eq_calculateFlightPosition
    (observer : Observer) (flight : FlightData) :
    (calculatePredictedFlightHorizontal observer flight.latitude flight.longitude
        flight.altitude).altitude = (calculateFlightPosition observer flight).altitude ∧
    (calculatePredictedFlightHorizontal observer flight.latitude flight.longitude
        flight.altitude).azimuth = (calculateFlightPosition observer flight).azimuth :=
  ⟨rfl, rfl⟩

/-- C9 counterexample: formatTimeToTransit branches on the raw value before
rounding, so at 59.7 seconds it prints "60s", while rounding first (to 60)
and then branching boundary-exactly would print "1m 0s". -/
theorem formatTimeToTransit_ne_spec_at_59_7 :
    formatTimeToTransit (597 / 10) = "60s" ∧
      formatTimeToTransitSpec (597 / 10) = "1m 0s" ∧
      formatTimeToTransit (597 / 10) ≠ formatTimeToTransitSpec (597 / 10) := by
  have hround : jsRound (597 / 10) = 60 := by
    unfold jsRound
    norm_num
  have h1 : formatTimeToTransit (597 / 10) = "60s" := by
    unfold formatTimeToTransit
    rw [if_pos (by norm_num : (597 : ℚ) / 10 < 60), hround]
    rfl
  have h2 : formatTimeToTransitSpec (597 / 10) = "1m 0s" := by
    unfold formatTimeToTransitSpec
    rw [hround]
    norm_num
    rfl
  refine ⟨h1, h2, ?_⟩
  rw [h1, h2]
  decide

/-- C9 amended: on whole-second inputs (where rounding is the identity),
formatTimeToTransit agrees with the round-first, boundary-exact description:
"Ns" below 60, "Mm Ss" in the interval from 60 up to 3600, "Hh Mm" from 3600
on; in particular 30, 90 and 3600 format as "30s", "1m 30s" and "1h 0m".
On non-integer inputs the code branches on the unrounded value instead. -/
theorem formatTimeToTransit_eq_spec_on_integers (n : ℤ) :
    formatTimeToTransit (n : ℚ) = formatTimeToTransitSpec (n : ℚ) := by
  have hr : jsRound (n : ℚ) = n := jsRound_intCast n
  have hc60 : ((60 : ℕ) : ℚ) = (60 : ℚ) := by norm_num
  have hc60i : ((60 : ℕ) : ℤ) = (60 : ℤ) := by norm_num
  have hc3600 : ((3600 : ℕ) : ℚ) = (3600 : ℚ) := by norm_num
  have hc3600i : ((3600 : ℕ) : ℤ) = (3600 : ℤ) := by norm_num
  unfold formatTimeToTransit formatTimeToTransitSpec
  by_cases h1 : (n : ℚ) < 60
  · have h1i : n < 60 := by exact_mod_cast h1
    rw [hr, if_pos h1, if_pos h1i]
  · have h1i : ¬ n < 60 := by
      intro hc
      exact h1 (by exact_mod_cast hc)
    have hn0 : 0 ≤ n := le_trans (by norm_num) (not_lt.mp h1i)
    by_cases h2 : (n : ℚ) < 3600
    · have h2i : n < 3600 := by exact_mod_cast h2
      have hmod : jsModQ (n : ℚ) (60 : ℚ) = ((n % 60 : ℤ) : ℚ) := by
        have h := jsModQ_intCast n 60 hn0 (by norm_num)
        rw [hc60, hc60i] at h
        exact h
      have hdiv : ⌊(n : ℚ) / (60 : ℚ)⌋ = n / (60 : ℤ) := by
        have h := Rat.floor_intCast_div_natCast n 60
        rw [hc60, hc60i] at h
        exact h
      rw [hr, if_neg h1, if_neg h1i, if_pos h2, if_pos h2i, hmod, hdiv,
        jsRound_intCast (n % 60)]
    · have h2i : ¬ n < 3600 := by
        intro hc
        exact h2 (by exact_mod_cast hc)
      have hmod : jsModQ (n : ℚ) (3600 : ℚ) = ((n % 3600 : ℤ) : ℚ) := by
        have h := jsModQ_intCast n 3600 hn0 (by norm_num)
        rw [hc3600, hc3600i] at h
        exact h
      have hdiv : ⌊(n : ℚ) / (3600 : ℚ)⌋ = n / (3600 : ℤ) := by
        have h := Rat.floor_intCast_div_natCast n 3600
        rw [hc3600, hc3600i] at h
        exact h
      have hdiv2 : ⌊((n % 3600 : ℤ) : ℚ) / (60 : ℚ)⌋ = (n % 3600) / (60 : ℤ) := by
        have h := Rat.floor_intCast_div_natCast (n % 3600) 60
        rw [hc60, hc60i] at h
        exact h
      rw [hr, if_neg h1, if_neg h1i, if_neg h2, if_neg h2i, hmod, hdiv, hdiv2]

/-! ### Properties of the atan2 model -/

theorem atan2_of_pos {y x : ℝ} (hx : 0 < x) : atan2 y x = arctan (y / x) := by
  unfold atan2
  rw [if_pos hx]

theorem atan2_zero_of_pos {x : ℝ} (hx : 0 < x) : atan2 0 x = 0 := by
  rw [atan2_of_pos hx, zero_div, arctan_zero]

theorem atan2_pos_zero {y : ℝ} (hy : 0 < y) : atan2 y 0 = π / 2 := by
  unfold atan2
  rw [if_neg (lt_irrefl 0), if_neg (lt_irrefl 0), if_pos hy]

theorem atan2_zero_zero : atan2 0 0 = 0 := by
  unfold atan2
  rw [if_neg (lt_irrefl 0), if_neg (lt_irrefl 0), if_neg (lt_irrefl 0), if_neg (lt_irrefl 0)]

theorem atan2_nonneg {y x : ℝ} (hy : 0 ≤ y) (hx : 0 ≤ x) : 0 ≤ atan2 y x := by
  rcases lt_or_eq_of_le hx with h | h
  · rw [atan2_of_pos h]
    have := arctan_strictMono.monotone (div_nonneg hy h.le)
    rwa [arctan_zero] at this
  · unfold atan2
    rw [if_neg (by rw [← h]; exact lt_irrefl 0), if_neg (by rw [← h]; exact lt_irrefl 0)]
    rcases lt_or_eq_of_le hy with hy2 | hy2
    · rw [if_pos hy2]
      positivity
    · rw [if_neg (by rw [← hy2]; exact lt_irrefl 0), if_neg (by rw [← hy2]; exact lt_irrefl 0)]

theorem atan2_le_pi_div_two {y x : ℝ} (hy : 0 ≤ y) (hx : 0 ≤ x) : atan2 y x ≤ π / 2 := by
  rcases lt_or_eq_of_le hx with h | h
  · rw [atan2_of_pos h]
    exact (arctan_lt_pi_div_two _).le
  · unfold atan2
    rw [if_neg (by rw [← h]; exact lt_irrefl 0), if_neg (by rw [← h]; exact lt_irrefl 0)]
    rcases lt_or_eq_of_le hy with hy2 | hy2
    · rw [if_pos hy2]
    · rw [if_neg (by rw [← hy2]; exact lt_irrefl 0), if_neg (by rw [← hy2]; exact lt_irrefl 0)]
      positivity

/-! ### Properties of the angular separation -/

theorem calculateAngularSeparation_eq (alt1 az1 alt2 az2 : ℝ) :
    calculateAngularSeparation alt1 az1 alt2 az2 =
      2 * atan2 (Real.sqrt (haversineA alt1 az1 alt2 az2))
        (Real.sqrt (1 - haversineA alt1 az1 alt2 az2)) * 180 / π :=
  rfl

theorem haversineA_symm (alt1 az1 alt2 az2 : ℝ) :
    haversineA alt1 az1 alt2 az2 = haversineA alt2 az2 alt1 az1 := by
  unfold haversineA
  have e1 : alt1 * (π / 180) - alt2 * (π / 180) = -(alt2 * (π / 180) - alt1 * (π / 180)) := by
    ring
  have e2 : (az1 - az2) * (π / 180) = -((az2 - az1) * (π / 180)) := by
    ring
  rw [e1, e2, neg_div, neg_div, Real.sin_neg, Real.sin_neg]
  ring

theorem haversineA_self (alt az : ℝ) : haversineA alt az alt az = 0 := by
  unfold haversineA
  rw [sub_self, sub_self, zero_mul, zero_div, Real.sin_zero]
  ring

/-- C7: calculateAngularSeparation is symmetric in its two horizontal
positions, vanishes on identical positions, and for altitudes within the
interval from -90 to 90 degrees its value lies between 0 and 180 degrees. -/
theorem calculateAngularSeparation_props :
    (∀ alt1 az1 alt2 az2 : ℝ,
        calculateAngularSeparation alt1 az1 alt2 az2 =
          calculateAngularSeparation alt2 az2 alt1 az1) ∧
    (∀ alt az : ℝ, calculateAngularSeparation alt az alt az = 0) ∧
    (∀ alt1 az1 alt2 az2 : ℝ, -90 ≤ alt1 → alt1 ≤ 90 → -90 ≤ alt2 → alt2 ≤ 90 →
        0 ≤ calculateAngularSeparation alt1 az1 alt2 az2 ∧
          calculateAngularSeparation alt1 az1 alt2 az2 ≤ 180) := by
  refine ⟨?_, ?_, ?_⟩
  · intro alt1 az1 alt2 az2
    rw [calculateAngularSeparation_eq, calculateAngularSeparation_eq, haversineA_symm]
  · intro alt az
    rw [calculateAngularSeparation_eq, haversineA_self, sub_zero, Real.sqrt_zero,
      Real.sqrt_one, atan2_zero_of_pos one_pos]
    ring
  · intro alt1 az1 alt2 az2 _h1 _h2 _h3 _h4
    rw [calculateAngularSeparation_eq]
    have hnn : 0 ≤ atan2 (Real.sqrt (haversineA alt1 az1 alt2 az2))
        (Real.sqrt (1 - haversineA alt1 az1 alt2 az2)) :=
      atan2_nonneg (Real.sqrt_nonneg _) (Real.sqrt_nonneg _)
    have hub : atan2 (Real.sqrt (haversineA alt1 az1 alt2 az2))
        (Real.sqrt (1 - haversineA alt1 az1 alt2 az2)) ≤ π / 2 :=
      atan2_le_pi_div_two (Real.sqrt_nonneg _) (Real.sqrt_nonneg _)
    constructor
    · apply div_nonneg _ pi_pos.le
      nlinarith
    · rw [div_le_iff₀ pi_pos]
      nlinarith [pi_pos]

/-- C7 witness: the three properties at concrete inputs. -/
theorem calculateAngularSeparation_props_witness :
    calculateAngularSeparation 10 20 30 40 = calculateAngularSeparation 30 40 10 20 ∧
    calculateAngularSeparation 45 180 45 180 = 0 ∧
    (0 ≤ calculateAngularSeparation 10 20 30 40 ∧
      calculateAngularSeparation 10 20 30 40 ≤ 180) :=
  ⟨calculateAngularSeparation_props.1 10 20 30 40,
   calculateAngularSeparation_props.2.1 45 180,
   calculateAngularSeparation_props.2.2 10 20 30 40 (by norm_num) (by norm_num)
     (by norm_num) (by norm_num)⟩

/-! ### Evaluation lemmas for the concrete scenario -/

theorem angularSeparation_self (alt az : ℝ) : calculateAngularSeparation alt az alt az = 0 := by
  rw [calculateAngularSeparation_eq, haversineA_self, sub_zero, Real.sqrt_zero,
    Real.sqrt_one, atan2_zero_of_pos one_pos]
  ring

theorem jsMod_self_360 : jsMod 360 360 = 0 := by
  unfold jsMod jsTrunc
  rw [show (360:ℝ)/360 = 1 by norm_num, if_pos (by norm_num : (0:ℝ) ≤ 1), Int.floor_one]
  norm_num

theorem horiz_eval (h : ℝ) :
    calculatePredictedFlightHorizontal obsCex 0 180 h =
      ⟨atan2 h (6371 * π * 1000) * 180 / π, 0⟩ := by
  have h1 : ((0:ℝ) - 0) * π / 180 / 2 = 0 := by ring
  have h2 : ((180:ℝ) - 0) * π / 180 / 2 = π / 2 := by ring
  have h3 : ((0:ℝ)) * π / 180 = 0 := by ring
  have h4 : ((180:ℝ) - 0) * π / 180 = π := by ring
  simp only [calculatePredictedFlightHorizontal, obsCex, h1, h2, h3, h4,
    Real.sin_zero, Real.cos_zero, Real.sin_pi_div_two, Real.sin_pi, Real.cos_pi, sub_zero,
    HorizontalCoordinates.mk.injEq]
  constructor
  · norm_num
    rw [atan2_pos_zero one_pos]
    ring_nf
  · norm_num
    rw [atan2_zero_zero]
    norm_num [jsMod_self_360]

theorem flightCex_def : flightCex = flightCexAlt 0 := rfl

theorem predictFlight_eval (h s : ℝ) :
    predictFlightPosition (flightCexAlt h) s = ⟨0, 180, h⟩ := by
  simp only [predictFlightPosition, flightCexAlt]
  have e1 : (0 : ℝ) * s = 0 := by ring
  have e2 : (0 : ℝ) / 6371000 = 0 := by norm_num
  have e3 : (0 : ℝ) * π / 180 = 0 := by ring
  have e4 : (180 : ℝ) * π / 180 = π := by ring
  rw [e1, e2, e3, e4, Real.sin_zero, Real.cos_zero, PredictedPosition.mk.injEq]
  norm_num
  rw [atan2_zero_of_pos one_pos, add_zero]
  field_simp

theorem flightPos_eval (h : ℝ) :
    calculateFlightPosition obsCex (flightCexAlt h) =
      ⟨flightCexAlt h, atan2 h (6371 * π * 1000) * 180 / π, 0, 6371 * π⟩ := by
  have h1 : ((0:ℝ) - 0) * π / 180 / 2 = 0 := by ring
  have h2 : ((180:ℝ) - 0) * π / 180 / 2 = π / 2 := by ring
  have h3 : ((0:ℝ)) * π / 180 = 0 := by ring
  have h4 : ((180:ℝ) - 0) * π / 180 = π := by ring
  simp only [calculateFlightPosition, obsCex, flightCexAlt, h1, h2, h3, h4,
    Real.sin_zero, Real.cos_zero, Real.sin_pi_div_two, Real.sin_pi, Real.cos_pi, sub_zero,
    FlightPosition.mk.injEq]
  refine ⟨trivial, ?_, ?_, ?_⟩
  · norm_num
    rw [atan2_pos_zero one_pos]
    ring_nf
  · norm_num
    rw [atan2_zero_zero]
    norm_num [jsMod_self_360]
  · norm_num
    rw [atan2_pos_zero one_pos]
    ring_nf

theorem horiz0_eval : calculatePredictedFlightHorizontal obsCex 0 180 0 = ⟨0, 0⟩ := by
  rw [horiz_eval, atan2_zero_of_pos (by positivity), HorizontalCoordinates.mk.injEq]
  norm_num

theorem flightPosCex_eval : calculateFlightPosition obsCex flightCex = fposCex := by
  rw [flightCex_def, flightPos_eval, atan2_zero_of_pos (by positivity)]
  unfold fposCex flightCex
  rw [FlightPosition.mk.injEq]
  norm_num

theorem sampleOffsets_zero : sampleOffsets 0 = [0] := by
  unfold sampleOffsets
  rw [if_pos le_rfl, show ⌊(0:ℝ)/5⌋ = 0 by norm_num,
    show List.range ((0:ℤ).toNat + 1) = [0] from rfl]
  simp

theorem transitStepCex_none :
    transitStep providerCex obsCex flightCex 0 none 0 = some ⟨0, 0, 0, 0⟩ := by
  simp only [transitStep, providerCex]
  rw [if_neg (lt_irrefl 0), flightCex_def, predictFlight_eval]
  simp only [horiz0_eval]
  rw [if_neg (lt_irrefl 0)]
  simp only [angularSeparation_self]
  norm_num

theorem predictTransitCex_eval (dn : ℝ) :
    predictTransit cfgCex providerCex obsCex flightCex fposCex ("Moon") bodyPosCex 0 dn
      = some (pCex dn) := by
  have hfold : (sampleOffsets cfgCex.predictionWindowSeconds).foldl
      (transitStep providerCex obsCex flightCex 0) none = some ⟨0, 0, 0, 0⟩ := by
    rw [show cfgCex.predictionWindowSeconds = 0 from rfl, sampleOffsets_zero]
    simp only [List.foldl_cons, List.foldl_nil, transitStepCex_none]
  unfold predictTransit
  rw [hfold]
  simp only
  rw [if_neg (by norm_num [cfgCex] : ¬ cfgCex.maxAngularSeparation < (0:ℝ))]
  unfold pCex confCex bodyPosCex
  norm_num

theorem processFlightCex_eval (dn : ℝ) (hconf : cfgCex.minConfidenceScore ≤ confCex dn) :
    processFlight cfgCex providerCex obsCex ("Moon") bodyPosCex 0 dn flightCex
      = some (pCex dn) := by
  unfold processFlight
  simp only [flightPosCex_eval]
  rw [if_neg (by norm_num [fposCex] : ¬ (fposCex).altitude < 0), predictTransitCex_eval]
  simp only
  rw [if_pos (by simpa [pCex] using hconf)]

theorem detectCex_eval (dn : ℝ) (hconf : cfgCex.minConfidenceScore ≤ confCex dn) :
    detectBodyTransits ("Moon") providerCex cfgCex obsCex [flightCex] bodyPosCex 0 dn
      = [pCex dn] := by
  unfold detectBodyTransits
  simp only [List.filterMap_cons, List.filterMap_nil, processFlightCex_eval dn hconf]
  simp [List.insertionSort, List.orderedInsert]

theorem confCex_at_zero : confCex 0 = 0.768 := by
  unfold confCex calculateConfidence freshnessFactor cfgCex bodyPosCex flightCex flightCexAlt
    fposCex
  norm_num

theorem confCex_at_big : confCex 100000000 = 0.5376 := by
  unfold confCex calculateConfidence freshnessFactor cfgCex bodyPosCex flightCex flightCexAlt
    fposCex
  norm_num

/-! ### Counterexamples C1 to C4 -/

/-- C1 counterexample: the window scan skips a sample only when an altitude
is strictly below 0, so a prediction can arise from a sample at which both
the sampled body altitude and the extrapolated aircraft altitude are
exactly 0, contradicting the strictly-greater-than-0 claim. -/
theorem detect_emits_boundary_altitude_sample :
    pCex 0 ∈ detectBodyTransits ("Moon") providerCex cfgCex obsCex [flightCex] bodyPosCex 0 0 ∧
    (providerCex obsCex (0 + (pCex 0).timeToTransit * 1000)).altitude = 0 ∧
    (sampleFlightHorizontal obsCex ((pCex 0).flight) ((pCex 0).timeToTransit)).altitude
      = 0 := by
  refine ⟨?_, rfl, ?_⟩
  · rw [detectCex_eval 0 (by rw [confCex_at_zero]; norm_num [cfgCex])]
    exact List.mem_singleton.mpr rfl
  · unfold sampleFlightHorizontal
    rw [show (pCex 0).flight = flightCex from rfl, show (pCex 0).timeToTransit = 0 from rfl,
      flightCex_def, predictFlight_eval]
    rw [show ((⟨0, 180, 0⟩ : PredictedPosition)).latitude = 0 from rfl,
      show ((⟨0, 180, 0⟩ : PredictedPosition)).longitude = 180 from rfl,
      show ((⟨0, 180, 0⟩ : PredictedPosition)).altitude = 0 from rfl, horiz0_eval]

/-- C2 counterexample: with every declared input fixed (observer, flight
list, body position, configuration, currentTime), changing only the ambient
wall-clock instant that calculateConfidence reads through Date.now changes
the returned prediction list (the confidence score moves from 0.768 to
0.5376), so the pass is not a function of its declared inputs alone. -/
theorem detect_depends_on_wall_clock :
    detectBodyTransits ("Moon") providerCex cfgCex obsCex [flightCex] bodyPosCex 0 0 ≠
      detectBodyTransits ("Moon") providerCex cfgCex obsCex [flightCex] bodyPosCex 0
        100000000 := by
  rw [detectCex_eval 0 (by rw [confCex_at_zero]; norm_num [cfgCex]),
    detectCex_eval 100000000 (by rw [confCex_at_big]; norm_num [cfgCex])]
  intro hc
  injection hc with h1 _h2
  have h3 := congrArg TransitPrediction.confidenceScore h1
  rw [show (pCex 0).confidenceScore = confCex 0 from rfl,
    show (pCex 100000000).confidenceScore = confCex 100000000 from rfl,
    confCex_at_zero, confCex_at_big] at h3
  norm_num at h3

/-- C3 counterexample: the loop `for (s = 0; s <= window; s += 5)` still
visits the offset-0 sample when the window is 0, so a zero prediction window
scans one candidate sample and the detection pass can return a prediction. -/
theorem detect_zero_window_emits :
    cfgCex.predictionWindowSeconds = 0 ∧
      detectBodyTransits ("Moon") providerCex cfgCex obsCex [flightCex] bodyPosCex 0 0 ≠
        [] := by
  refine ⟨rfl, ?_⟩
  rw [detectCex_eval 0 (by rw [confCex_at_zero]; norm_num [cfgCex])]
  simp

/-- C4 counterexample: the emitted prediction's body-altitude field holds
the altitude of the body-position snapshot passed in (45 degrees), not the
sampled body altitude at the prediction's transit time (0 degrees). -/
theorem detect_body_fields_snapshot :
    pCex 0 ∈ detectBodyTransits ("Moon") providerCex cfgCex obsCex [flightCex] bodyPosCex 0 0 ∧
    (pCex 0).bodyAltitude = 45 ∧
    (providerCex obsCex ((pCex 0).transitTime)).altitude = 0 ∧
    (pCex 0).bodyAltitude ≠ (providerCex obsCex ((pCex 0).transitTime)).altitude := by
  refine ⟨?_, rfl, rfl, ?_⟩
  · rw [detectCex_eval 0 (by rw [confCex_at_zero]; norm_num [cfgCex])]
    exact List.mem_singleton.mpr rfl
  · show (45 : ℝ) ≠ 0
    norm_num

/-! ### The window-scan invariant: every emitted prediction comes from an
actual sample -/

theorem transitStep_witness (provider : CelestialProvider) (observer : Observer)
    (flight : FlightData) (currentTime : ℝ) (best : Option ClosestApproach) (s : ℝ)
    (h : ∀ b, best = some b → IsSampleOf provider observer flight currentTime b) :
    ∀ b, transitStep provider observer flight currentTime best s = some b →
      IsSampleOf provider observer flight currentTime b := by
  intro b hb
  simp only [transitStep] at hb
  by_cases h1 : (provider observer (currentTime + s * 1000)).altitude < 0
  · rw [if_pos h1] at hb
    exact h b hb
  · rw [if_neg h1] at hb
    by_cases h2 : (calculatePredictedFlightHorizontal observer
        (predictFlightPosition flight s).latitude (predictFlightPosition flight s).longitude
        (predictFlightPosition flight s).altitude).altitude < 0
    · rw [if_pos h2] at hb
      exact h b hb
    · rw [if_neg h2] at hb
      cases best with
      | none =>
        simp only [Option.some.injEq] at hb
        subst hb
        exact ⟨s, not_lt.mp h1, not_lt.mp h2, rfl, rfl, rfl, rfl⟩
      | some b0 =>
        simp only at hb
        split at hb
        · simp only [Option.some.injEq] at hb
          subst hb
          exact ⟨s, not_lt.mp h1, not_lt.mp h2, rfl, rfl, rfl, rfl⟩
        · simp only [Option.some.injEq] at hb
          subst hb
          exact h b0 rfl

theorem foldl_transitStep_witness (provider : CelestialProvider) (observer : Observer)
    (flight : FlightData) (currentTime : ℝ) :
    ∀ (l : List ℝ) (init : Option ClosestApproach),
      (∀ b, init = some b → IsSampleOf provider observer flight currentTime b) →
      ∀ b, l.foldl (transitStep provider observer flight currentTime) init = some b →
        IsSampleOf provider observer flight currentTime b := by
  intro l
  induction l with
  | nil =>
    intro init h b hb
    simp only [List.foldl_nil] at hb
    exact h b hb
  | cons x xs ih =>
    intro init h b hb
    simp only [List.foldl_cons] at hb
    exact ih _ (transitStep_witness provider observer flight currentTime init x h) b hb

theorem predictTransit_some {config : TransitDetectorConfig} {provider : CelestialProvider}
    {observer : Observer} {flight : FlightData} {cfp : FlightPosition} {bodyName : String}
    {bodyPosition : CelestialPosition} {currentTime dateNowMs : ℝ} {p : TransitPrediction}
    (hp : predictTransit config provider observer flight cfp bodyName bodyPosition
      currentTime dateNowMs = some p) :
    ∃ closest : ClosestApproach,
      (sampleOffsets config.predictionWindowSeconds).foldl
        (transitStep provider observer flight currentTime) none = some closest ∧
      ¬ config.maxAngularSeparation < closest.separation ∧
      p = { flight := flight, transitTime := closest.time,
            angularSeparation := closest.separation,
            confidenceScore := calculateConfidence config dateNowMs closest.separation flight
              bodyPosition cfp,
            bodyName := bodyName, bodyAltitude := bodyPosition.altitude,
            bodyAzimuth := bodyPosition.azimuth, flightAltitude := closest.flightAlt,
            flightAzimuth := closest.flightAz,
            timeToTransit := (closest.time - currentTime) / 1000 } := by
  unfold predictTransit at hp
  cases hfold : (sampleOffsets config.predictionWindowSeconds).foldl
      (transitStep provider observer flight currentTime) none with
  | none =>
    rw [hfold] at hp
    simp at hp
  | some closest =>
    rw [hfold] at hp
    simp only at hp
    split at hp
    · simp at hp
    · simp only [Option.some.injEq] at hp
      rename_i hsep
      exact ⟨closest, rfl, hsep, hp.symm⟩

theorem mem_detect_elim {bodyName : String} {provider : CelestialProvider}
    {config : TransitDetectorConfig} {observer : Observer} {flights : List FlightData}
    {bodyPosition : CelestialPosition} {currentTime dateNowMs : ℝ} {p : TransitPrediction}
    (hp : p ∈ detectBodyTransits bodyName provider config observer flights bodyPosition
      currentTime dateNowMs) :
    ∃ flight ∈ flights,
      ¬ (calculateFlightPosition observer flight).altitude < 0 ∧
      predictTransit config provider observer flight (calculateFlightPosition observer flight)
        bodyName bodyPosition currentTime dateNowMs = some p ∧
      config.minConfidenceScore ≤ p.confidenceScore := by
  unfold detectBodyTransits at hp
  simp only [List.mem_insertionSort] at hp
  obtain ⟨flight, hmem, hf⟩ := List.mem_filterMap.mp hp
  unfold processFlight at hf
  simp only at hf
  by_cases halt : (calculateFlightPosition observer flight).altitude < 0
  · rw [if_pos halt] at hf
    exact absurd hf (by simp)
  · rw [if_neg halt] at hf
    cases hpt : predictTransit config provider observer flight
        (calculateFlightPosition observer flight) bodyName bodyPosition currentTime
        dateNowMs with
    | none =>
      rw [hpt] at hf
      exact absurd hf (by simp)
    | some pred =>
      rw [hpt] at hf
      simp only at hf
      split at hf
      · simp only [Option.some.injEq] at hf
        subst hf
        rename_i hconf
        exact ⟨flight, hmem, halt, hpt, hconf⟩
      · exact absurd hf (by simp)

/-- Every member of the detection output satisfies the full per-sample
specification: its transit offset is a window sample at which both the body
and the extrapolated aircraft were at or above the horizon, its separation
is within the maximum, its aircraft coordinates are those of that sample,
and its body coordinates come from the input body-position snapshot. -/
theorem detect_mem_sample_spec {bodyName : String} {provider : CelestialProvider}
    {config : TransitDetectorConfig} {observer : Observer} {flights : List FlightData}
    {bodyPosition : CelestialPosition} {currentTime dateNowMs : ℝ} (p : TransitPrediction)
    (hp : p ∈ detectBodyTransits bodyName provider config observer flights bodyPosition
      currentTime dateNowMs) :
    0 ≤ (provider observer (currentTime + p.timeToTransit * 1000)).altitude ∧
    0 ≤ (sampleFlightHorizontal observer p.flight p.timeToTransit).altitude ∧
    p.angularSeparation ≤ config.maxAngularSeparation ∧
    p.flightAltitude = (sampleFlightHorizontal observer p.flight p.timeToTransit).altitude ∧
    p.flightAzimuth = (sampleFlightHorizontal observer p.flight p.timeToTransit).azimuth ∧
    p.bodyAltitude = bodyPosition.altitude ∧
    p.bodyAzimuth = bodyPosition.azimuth := by
  obtain ⟨flight, _hmem, _halt, hpt, _hconf⟩ := mem_detect_elim hp
  obtain ⟨closest, hfold, hsep, hpeq⟩ := predictTransit_some hpt
  obtain ⟨s, hbody, hflight, htime, _hsepeq, hfa, hfz⟩ :=
    foldl_transitStep_witness provider observer flight currentTime
      (sampleOffsets config.predictionWindowSeconds) none
      (fun b hb => Option.noConfusion hb) closest hfold
  have hts : p.timeToTransit = s := by
    rw [hpeq]
    simp only
    rw [htime]
    ring
  have hfl : p.flight = flight := by
    rw [hpeq]
  rw [hts, hfl]
  refine ⟨hbody, hflight, ?_, ?_, ?_, ?_, ?_⟩
  · rw [hpeq]
    exact not_lt.mp hsep
  · rw [hpeq]
    exact hfa
  · rw [hpeq]
    exact hfz
  · rw [hpeq]
  · rw [hpeq]

/-! ### Claim theorems C1, C4, C5 and witnesses -/

/-- C1 amended: every prediction the detection pass returns arises from a
window sample at which the sampled celestial-body altitude and the
extrapolated aircraft's horizontal altitude are both at least 0 degrees
(the code skips a sample only when an altitude is strictly negative, so
exactly-on-the-horizon samples are candidates), and its minimum angular
separation does not exceed the configured maximum. -/
theorem detect_mem_above_horizon_within_max (bodyName : String)
    (provider : CelestialProvider) (config : TransitDetectorConfig) (observer : Observer)
    (flights : List FlightData) (bodyPosition : CelestialPosition)
    (currentTime dateNowMs : ℝ) (p : TransitPrediction)
    (hp : p ∈ detectBodyTransits bodyName provider config observer flights bodyPosition
      currentTime dateNowMs) :
    0 ≤ (provider observer (currentTime + p.timeToTransit * 1000)).altitude ∧
    0 ≤ (sampleFlightHorizontal observer p.flight p.timeToTransit).altitude ∧
    p.angularSeparation ≤ config.maxAngularSeparation :=
  ⟨(detect_mem_sample_spec p hp).1, (detect_mem_sample_spec p hp).2.1,
    (detect_mem_sample_spec p hp).2.2.1⟩

/-- C1 amended witness: the concrete scenario's prediction. -/
theorem detect_mem_above_horizon_within_max_witness :
    0 ≤ (providerCex obsCex (0 + (pCex 0).timeToTransit * 1000)).altitude ∧
    0 ≤ (sampleFlightHorizontal obsCex ((pCex 0).flight) ((pCex 0).timeToTransit)).altitude ∧
    (pCex 0).angularSeparation ≤ cfgCex.maxAngularSeparation :=
  detect_mem_above_horizon_within_max ("Moon") providerCex cfgCex obsCex [flightCex]
    bodyPosCex 0 0 (pCex 0)
    (by rw [detectCex_eval 0 (by rw [confCex_at_zero]; norm_num [cfgCex])]
        exact List.mem_singleton.mpr rfl)

/-- C4 amended: the aircraft-altitude and aircraft-azimuth fields of every
emitted prediction record the horizontal coordinates of the extrapolated
aircraft at the sample of closest approach, while the body-altitude and
body-azimuth fields record the coordinates of the body-position snapshot
passed into the pass (the current-time position, not the sample-time
position). -/
theorem detect_mem_recorded_fields (bodyName : String) (provider : CelestialProvider)
    (config : TransitDetectorConfig) (observer : Observer) (flights : List FlightData)
    (bodyPosition : CelestialPosition) (currentTime dateNowMs : ℝ) (p : TransitPrediction)
    (hp : p ∈ detectBodyTransits bodyName provider config observer flights bodyPosition
      currentTime dateNowMs) :
    p.flightAltitude = (sampleFlightHorizontal observer p.flight p.timeToTransit).altitude ∧
    p.flightAzimuth = (sampleFlightHorizontal observer p.flight p.timeToTransit).azimuth ∧
    p.bodyAltitude = bodyPosition.altitude ∧
    p.bodyAzimuth = bodyPosition.azimuth :=
  ⟨(detect_mem_sample_spec p hp).2.2.2.1, (detect_mem_sample_spec p hp).2.2.2.2.1,
    (detect_mem_sample_spec p hp).2.2.2.2.2.1, (detect_mem_sample_spec p hp).2.2.2.2.2.2⟩

/-- C4 amended witness: the concrete scenario's prediction. -/
theorem detect_mem_recorded_fields_witness :
    (pCex 0).flightAltitude =
      (sampleFlightHorizontal obsCex ((pCex 0).flight) ((pCex 0).timeToTransit)).altitude ∧
    (pCex 0).flightAzimuth =
      (sampleFlightHorizontal obsCex ((pCex 0).flight) ((pCex 0).timeToTransit)).azimuth ∧
    (pCex 0).bodyAltitude = bodyPosCex.altitude ∧
    (pCex 0).bodyAzimuth = bodyPosCex.azimuth :=
  detect_mem_recorded_fields ("Moon") providerCex cfgCex obsCex [flightCex] bodyPosCex 0 0
    (pCex 0)
    (by rw [detectCex_eval 0 (by rw [confCex_at_zero]; norm_num [cfgCex])]
        exact List.mem_singleton.mpr rfl)

/-- C5: the list returned by the detection pass is sorted ascending by
seconds-until-transit, and no returned prediction has a confidence score
below the configured minimum. -/
theorem detect_sorted_and_confidence_filtered (bodyName : String)
    (provider : CelestialProvider) (config : TransitDetectorConfig) (observer : Observer)
    (flights : List FlightData) (bodyPosition : CelestialPosition)
    (currentTime dateNowMs : ℝ) :
    List.Sorted predictionLE (detectBodyTransits bodyName provider config observer flights
      bodyPosition currentTime dateNowMs) ∧
    ∀ p ∈ detectBodyTransits bodyName provider config observer flights bodyPosition
      currentTime dateNowMs, config.minConfidenceScore ≤ p.confidenceScore := by
  constructor
  · unfold detectBodyTransits
    simp only
    exact List.sorted_insertionSort predictionLE _
  · intro p hp
    obtain ⟨flight, _, _, _, hconf⟩ := mem_detect_elim hp
    exact hconf

/-- C5 witness: the concrete scenario. -/
theorem detect_sorted_and_confidence_filtered_witness :
    List.Sorted predictionLE (detectBodyTransits ("Moon") providerCex cfgCex obsCex
      [flightCex] bodyPosCex 0 0) ∧
    cfgCex.minConfidenceScore ≤ (pCex 0).confidenceScore :=
  ⟨(detect_sorted_and_confidence_filtered ("Moon") providerCex cfgCex obsCex [flightCex]
      bodyPosCex 0 0).1,
   (detect_sorted_and_confidence_filtered ("Moon") providerCex cfgCex obsCex [flightCex]
      bodyPosCex 0 0).2 (pCex 0)
     (by rw [detectCex_eval 0 (by rw [confCex_at_zero]; norm_num [cfgCex])]
         exact List.mem_singleton.mpr rfl)⟩

/-! ### Claim theorems C2, C3, C6, C8 and witnesses -/

theorem calculateConfidence_freshness {dn1 dn2 : ℝ} {flight : FlightData}
    (h : freshnessFactor dn1 flight = freshnessFactor dn2 flight)
    (config : TransitDetectorConfig) (sep : ℝ) (bodyPosition : CelestialPosition)
    (fp : FlightPosition) :
    calculateConfidence config dn1 sep flight bodyPosition fp =
      calculateConfidence config dn2 sep flight bodyPosition fp := by
  unfold calculateConfidence
  rw [h]

theorem predictTransit_freshness {dn1 dn2 : ℝ} {flight : FlightData}
    (h : freshnessFactor dn1 flight = freshnessFactor dn2 flight)
    (config : TransitDetectorConfig) (provider : CelestialProvider) (observer : Observer)
    (cfp : FlightPosition) (bodyName : String) (bodyPosition : CelestialPosition)
    (currentTime : ℝ) :
    predictTransit config provider observer flight cfp bodyName bodyPosition currentTime dn1 =
      predictTransit config provider observer flight cfp bodyName bodyPosition currentTime
        dn2 := by
  unfold predictTransit
  cases (sampleOffsets config.predictionWindowSeconds).foldl
      (transitStep provider observer flight currentTime) none with
  | none => rfl
  | some closest =>
    simp only
    rw [calculateConfidence_freshness h]

theorem processFlight_freshness {dn1 dn2 : ℝ} {flight : FlightData}
    (h : freshnessFactor dn1 flight = freshnessFactor dn2 flight)
    (config : TransitDetectorConfig) (provider : CelestialProvider) (observer : Observer)
    (bodyName : String) (bodyPosition : CelestialPosition) (currentTime : ℝ) :
    processFlight config provider observer bodyName bodyPosition currentTime dn1 flight =
      processFlight config provider observer bodyName bodyPosition currentTime dn2 flight := by
  simp only [processFlight]
  rw [predictTransit_freshness h]

/-- C2 amended: the detection pass is a pure function of its declared
inputs together with the one ambient value it reads, the wall-clock instant
sampled by Date.now inside calculateConfidence; whenever two wall-clock
instants put every flight's data age into the same freshness bucket (under
10 seconds, under 30 seconds, or stale), the two invocations return
identical prediction lists.  Without that condition the output can differ,
as the counterexample shows. -/
theorem detect_deterministic_given_freshness (bodyName : String)
    (provider : CelestialProvider) (config : TransitDetectorConfig) (observer : Observer)
    (flights : List FlightData) (bodyPosition : CelestialPosition)
    (currentTime dn1 dn2 : ℝ)
    (h : ∀ f ∈ flights, freshnessFactor dn1 f = freshnessFactor dn2 f) :
    detectBodyTransits bodyName provider config observer flights bodyPosition currentTime
        dn1 =
      detectBodyTransits bodyName provider config observer flights bodyPosition currentTime
        dn2 := by
  unfold detectBodyTransits
  simp only
  congr 1
  exact List.filterMap_congr fun f hf => processFlight_freshness (h f hf) config provider
    observer bodyName bodyPosition currentTime

/-- C2 amended witness: wall-clock instants 0 and 5000 milliseconds give
the hovering aircraft data ages 0 and 5 seconds, both in the freshest
bucket, so the outputs agree. -/
theorem detect_deterministic_given_freshness_witness :
    detectBodyTransits ("Moon") providerCex cfgCex obsCex [flightCex] bodyPosCex 0 0 =
      detectBodyTransits ("Moon") providerCex cfgCex obsCex [flightCex] bodyPosCex 0
        5000 :=
  detect_deterministic_given_freshness ("Moon") providerCex cfgCex obsCex [flightCex]
    bodyPosCex 0 0 5000
    (by
      intro f hf
      rw [List.mem_singleton] at hf
      subst hf
      unfold freshnessFactor flightCex flightCexAlt
      norm_num)

theorem sampleOffsets_neg {W : ℝ} (hW : W < 0) : sampleOffsets W = [] := by
  unfold sampleOffsets
  rw [if_neg (not_le.mpr hW)]

theorem processFlight_neg_window {config : TransitDetectorConfig}
    (hW : config.predictionWindowSeconds < 0) (provider : CelestialProvider)
    (observer : Observer) (bodyName : String) (bodyPosition : CelestialPosition)
    (currentTime dateNowMs : ℝ) (flight : FlightData) :
    processFlight config provider observer bodyName bodyPosition currentTime dateNowMs
      flight = none := by
  simp only [processFlight]
  have hpt : predictTransit config provider observer flight
      (calculateFlightPosition observer flight) bodyName bodyPosition currentTime
      dateNowMs = none := by
    unfold predictTransit
    rw [sampleOffsets_neg hW]
    simp only [List.foldl_nil]
  rw [hpt]
  split
  · rfl
  · rfl

/-- C3 amended: the window scan visits the offsets 0, 5, 10, ... up to the
window length, so a zero window still visits exactly the offset-0 sample
(and can therefore emit a prediction, as the counterexample shows); a
negative window visits zero samples and the detection pass returns no
predictions, without any validation. -/
theorem window_scan_boundary_behavior :
    sampleOffsets 0 = [0] ∧
    (∀ W : ℝ, W < 0 → sampleOffsets W = []) ∧
    (∀ (bodyName : String) (provider : CelestialProvider) (config : TransitDetectorConfig)
        (observer : Observer) (flights : List FlightData)
        (bodyPosition : CelestialPosition) (currentTime dateNowMs : ℝ),
      config.predictionWindowSeconds < 0 →
      detectBodyTransits bodyName provider config observer flights bodyPosition currentTime
        dateNowMs = []) := by
  refine ⟨sampleOffsets_zero, fun W hW => sampleOffsets_neg hW, ?_⟩
  intro bodyName provider config observer flights bodyPosition currentTime dateNowMs hW
  unfold detectBodyTransits
  simp only
  have hfm : flights.filterMap
      (processFlight config provider observer bodyName bodyPosition currentTime dateNowMs)
      = [] := by
    induction flights with
    | nil => rfl
    | cons x xs ih =>
      rw [List.filterMap_cons, processFlight_neg_window hW]
      exact ih
  rw [hfm]
  rfl

/-- C3 amended witness: a window of -5 seconds yields no samples and an
empty prediction list. -/
theorem window_scan_boundary_behavior_witness :
    sampleOffsets (-5) = [] ∧
    detectBodyTransits ("Moon") providerCex cfgNegWindow obsCex [flightCex] bodyPosCex 0 0
      = [] :=
  ⟨window_scan_boundary_behavior.2.1 (-5) (by norm_num),
   window_scan_boundary_behavior.2.2 ("Moon") providerCex cfgNegWindow obsCex [flightCex]
     bodyPosCex 0 0 (by norm_num [cfgNegWindow])⟩

/-- C6: a flight whose current horizontal altitude is negative is excluded
before any window search: removing it from the flight list leaves the
output unchanged, and the number of celestial-provider queries attributable
to it is zero. -/
theorem detect_skips_below_horizon_flight (bodyName : String)
    (provider : CelestialProvider) (config : TransitDetectorConfig) (observer : Observer)
    (bodyPosition : CelestialPosition) (currentTime dateNowMs : ℝ)
    (xs ys : List FlightData) (f : FlightData)
    (hneg : (calculateFlightPosition observer f).altitude < 0) :
    detectBodyTransits bodyName provider config observer (xs ++ f :: ys) bodyPosition
        currentTime dateNowMs =
      detectBodyTransits bodyName provider config observer (xs ++ ys) bodyPosition
        currentTime dateNowMs ∧
    flightProviderCalls config observer f = 0 ∧
    detectProviderCalls config observer (xs ++ f :: ys) =
      detectProviderCalls config observer (xs ++ ys) := by
  have hnone : processFlight config provider observer bodyName bodyPosition currentTime
      dateNowMs f = none := by
    simp only [processFlight]
    rw [if_pos hneg]
  refine ⟨?_, ?_, ?_⟩
  · unfold detectBodyTransits
    simp only
    congr 1
    rw [List.filterMap_append, List.filterMap_append, List.filterMap_cons, hnone]
  · unfold flightProviderCalls
    rw [if_pos hneg]
  · unfold detectProviderCalls
    rw [List.map_append, List.map_append, List.map_cons, List.sum_append, List.sum_append,
      List.sum_cons]
    unfold flightProviderCalls
    rw [if_pos hneg]
    simp

theorem flightNeg_below_horizon :
    (calculateFlightPosition obsCex (flightCexAlt (-1000))).altitude < 0 := by
  rw [flightPos_eval]
  simp only
  rw [atan2_of_pos (by positivity : (0:ℝ) < 6371 * π * 1000)]
  have hx : (-1000 : ℝ) / (6371 * π * 1000) < 0 := by
    apply div_neg_of_neg_of_pos (by norm_num)
    positivity
  have harc : arctan ((-1000 : ℝ) / (6371 * π * 1000)) < 0 := by
    have := arctan_strictMono hx
    rwa [arctan_zero] at this
  have h180 : arctan ((-1000 : ℝ) / (6371 * π * 1000)) * 180 < 0 :=
    mul_neg_of_neg_of_pos harc (by norm_num)
  exact div_neg_of_neg_of_pos h180 pi_pos

/-- C6 witness: the hovering aircraft 1000 meters below the observer's
horizon plane is skipped and costs zero provider queries. -/
theorem detect_skips_below_horizon_flight_witness :
    detectBodyTransits ("Moon") providerCex cfgCex obsCex
        ([] ++ flightCexAlt (-1000) :: []) bodyPosCex 0 0 =
      detectBodyTransits ("Moon") providerCex cfgCex obsCex ([] ++ []) bodyPosCex 0 0 ∧
    flightProviderCalls cfgCex obsCex (flightCexAlt (-1000)) = 0 ∧
    detectProviderCalls cfgCex obsCex ([] ++ flightCexAlt (-1000) :: []) =
      detectProviderCalls cfgCex obsCex ([] ++ []) :=
  detect_skips_below_horizon_flight ("Moon") providerCex cfgCex obsCex bodyPosCex 0 0
    [] [] (flightCexAlt (-1000)) flightNeg_below_horizon

/-- C8 counterexample: with the angular diameter 0.52 and every other
factor identical (velocity 500, data age 0, current altitude 45), a very
loose maximum angular separation makes both the 0.2-degree and the
0.4-degree scores clamp to 1, so the 0.2-degree separation does not yield a
strictly higher final score. -/
theorem confidence_clamp_equalizes :
    bodyPosCex.angularDiameter = 0.52 ∧
    calculateConfidence cfgWide 0 0.2 flightFast bodyPosCex fposHigh =
      calculateConfidence cfgWide 0 0.4 flightFast bodyPosCex fposHigh := by
  refine ⟨rfl, ?_⟩
  unfold calculateConfidence freshnessFactor cfgWide bodyPosCex flightFast fposHigh
  norm_num

/-- C8 amended: the disk bonus multiplies the score by 1.2 exactly when the
separation is at most half the body's angular diameter, and with the
default maximum angular separation of 0.5 degrees (under which no clamp is
reached), a 0.2-degree separation scores strictly higher than an
otherwise-identical 0.4-degree separation for a body of angular diameter
0.52 degrees. -/
theorem confidence_disk_bonus_strict (config : TransitDetectorConfig) (dn : ℝ)
    (flight : FlightData) (bodyPos : CelestialPosition) (fp : FlightPosition)
    (hmax : config.maxAngularSeparation = 0.5) (hdiam : bodyPos.angularDiameter = 0.52) :
    calculateConfidence config dn 0.4 flight bodyPos fp <
      calculateConfidence config dn 0.2 flight bodyPos fp := by
  simp only [calculateConfidence, freshnessFactor]
  rw [hmax, hdiam]
  rw [if_pos (by norm_num : (0.2:ℝ) ≤ 0.52 / 2), if_neg (by norm_num : ¬ (0.4:ℝ) ≤ 0.52 / 2)]
  split_ifs <;> norm_num [min_def, max_def]

/-- C8 amended witness: the default configuration and the fast, fresh,
high aircraft. -/
theorem confidence_disk_bonus_strict_witness :
    calculateConfidence defaultConfig 0 0.4 flightFast bodyPosCex fposHigh <
      calculateConfidence defaultConfig 0 0.2 flightFast bodyPosCex fposHigh :=
  confidence_disk_bonus_strict defaultConfig 0 flightFast bodyPosCex fposHigh rfl rfl
